import Mathlib

/-!
Verification of the chat-session backend (`src/server.js`).

The repository contains two near-duplicate variants of the same program in
`src/server.js`: an Express application (first part) and a serverless
handler (`exports.handler`, second part).  Both are CRUD handlers over a
`sessions` object mapping session ids to records
`{ id, title, createdAt, messages }`.

Shallow embedding conventions:
- The JavaScript object `sessions` keeps string-keyed properties in
  insertion order (uuid keys are not array indices), so `Object.values`
  enumerates sessions in insertion order.  We model the store as a
  `List Session` in insertion order; `sessions[id]` lookup is first-match
  search by id, and `sessions[id] = v` overwrites in place when the key
  exists and appends otherwise.
- ISO-8601 timestamps produced by `new Date().toISOString()` are modelled
  as `Nat` epoch milliseconds; `new Date(s)` parsing in the sort comparator
  becomes the identity, and comparator `new Date(b) - new Date(a)` becomes
  descending order on `Nat`.
- The effects `uuidv4()` and `new Date()` are modelled by passing the fresh
  identifier and the clock reading as explicit arguments; uniqueness of
  uuids is an assumption about the environment and appears as a freshness
  hypothesis where a claim needs it.
- JavaScript `null`/`undefined` optional values become `Option`; string
  truthiness (`!s` is true exactly for `undefined`, `null` and `""`) is
  modelled by `jsFalsyStr`.
-/

/-- A tabular payload, `{ headers, rows, meta: { generatedAt } }` as built by
`sampleStructuredResponse` / `structuredReply`.  Its internal shape is opaque
to the store. -/
structure Table where
  headers : List String
  rows : List (List String)
  generatedAt : Nat
deriving DecidableEq, Repr

/-- A structured reply `{ description, table }`. -/
structure Structured where
  description : String
  table : Table
deriving DecidableEq, Repr

/-- A stored message, as built by `addMessage`:
`{ id, role, text, structured, feedback, createdAt }`. -/
structure Message where
  id : String
  role : String
  text : String
  structured : Option Structured
  feedback : Option String
  createdAt : Nat
deriving DecidableEq, Repr

/-- A stored session, `{ id, title, createdAt, messages }`. -/
structure Session where
  id : String
  title : String
  createdAt : Nat
  messages : List Message
deriving DecidableEq, Repr

/-- The `sessions` object, in property-insertion order. -/
abbrev Store := List Session

/-- Truthiness of an optional JavaScript string: `!x` holds exactly for
`undefined`, `null` and the empty string. -/
def jsFalsyStr (x : Option String) : Bool :=
  match x with
  | none => true
  | some s => s = ""

/-- Two-digit zero padding used by `toLocaleTimeString` with `2-digit`
options. -/
def pad2 (n : Nat) : String :=
  if n < 10 then "0" ++ toString n else toString n

/-- Local time of day `HH:MM:SS` derived from epoch milliseconds, modelling
`new Date(createdAt).toLocaleTimeString([], \x7b hour, minute, second:
'2-digit' \x7d)` (the local-timezone offset is absorbed into the epoch
value). -/
def localTimeHMS (now : Nat) : String :=
  let secs := now / 1000
  pad2 (secs / 3600 % 24) ++ ":" ++ pad2 (secs / 60 % 60) ++ ":" ++ pad2 (secs % 60)

/-- The default title `"Chat - " + <local time HH:MM:SS>`. -/
def defaultTitle (now : Nat) : String :=
  "Chat - " ++ localTimeHMS now

/-- Lookup `sessions[id] || null` (`getSession` in the source): first session
whose id matches. -/
def getSession (st : Store) (sessionId : String) : Option Session :=
  match st with
  | [] => none
  | s :: rest => if s.id = sessionId then some s else getSession rest sessionId

/-- Property assignment `sessions[id] = v`: overwrite in place when the key
exists, append otherwise. -/
def storeInsert (st : Store) (v : Session) : Store :=
  match st with
  | [] => [v]
  | s :: rest => if s.id = v.id then v :: rest else s :: storeInsert rest v

/-- The source's `createSession(title)`: builds the record
`\x7b id, title: title || default, createdAt, messages: [] \x7d`, stores it
under `id`, and returns it.  The fresh uuid and the clock reading are
explicit arguments. -/
def createSession (st : Store) (freshId : String) (now : Nat) (title : Option String) : Session × Store :=
  let sTitle := match title with
    | none => defaultTitle now
    | some t => if t = "" then defaultTitle now else t
  let s : Session := { id := freshId, title := sTitle, createdAt := now, messages := [] }
  (s, storeInsert st s)

/-- One element of the `listSessions` result:
`\x7b id, title, createdAt, messageCount \x7d`. -/
structure SessionSummary where
  id : String
  title : String
  createdAt : Nat
  messageCount : Nat
deriving DecidableEq, Repr

/-- The summary record built by the `map` inside `listSessions`. -/
def sessionSummary (s : Session) : SessionSummary :=
  { id := s.id, title := s.title, createdAt := s.createdAt, messageCount := s.messages.length }

/-- The sort comparator `(a, b) => new Date(b.createdAt) - new Date(a.createdAt)`:
`a` precedes `b` when `b.createdAt ≤ a.createdAt` (descending). -/
def summaryLE (a b : SessionSummary) : Prop :=
  b.createdAt ≤ a.createdAt

instance : DecidableRel summaryLE := fun a b => Nat.decLe b.createdAt a.createdAt

instance : IsTotal SessionSummary summaryLE :=
  ⟨fun a b => (Nat.le_total b.createdAt a.createdAt).imp id id⟩

instance : IsTrans SessionSummary summaryLE :=
  ⟨fun _ _ _ h1 h2 => Nat.le_trans h2 h1⟩

/-- The source's `listSessions()`: map each session to its summary and sort
by creation timestamp descending. -/
def listSessions (st : Store) : List SessionSummary :=
  List.insertionSort summaryLE (st.map sessionSummary)

/-- In-place `s.messages.push(msg)` on the session found under `sessionId`
(every property named `sessionId` is the same object in JS; the map mutates
the one record). -/
def pushMessage (st : Store) (sessionId : String) (msg : Message) : Store :=
  st.map (fun s => if s.id = sessionId then { s with messages := s.messages ++ [msg] } else s)

/-- The source's `addMessage(sessionId, role, text, structured, feedback)`:
returns `null` and leaves the store alone when the session id is unknown;
otherwise builds the message record, pushes it onto the session's `messages`
array and returns it.  The fresh uuid and the clock reading are explicit
arguments. -/
def addMessage (st : Store) (sessionId role text : String) (structured : Option Structured)
    (feedback : Option String) (freshId : String) (now : Nat) : Option Message × Store :=
  match getSession st sessionId with
  | none => (none, st)
  | some _ =>
    let msg : Message :=
      { id := freshId, role := role, text := text, structured := structured,
        feedback := feedback, createdAt := now }
    (some msg, pushMessage st sessionId msg)

/-- The inner loop body of the feedback route:
`session.messages.find(m => m.id === messageId && m.role === 'assistant')`
followed by `msg.feedback = feedback` on the first match.  Returns whether a
match was found together with the updated message array. -/
def setFeedbackInSession (msgs : List Message) (messageId : String) (fb : Option String) :
    Bool × List Message :=
  match msgs with
  | [] => (false, [])
  | m :: rest =>
    if m.id = messageId ∧ m.role = "assistant" then
      (true, { m with feedback := fb } :: rest)
    else
      let r := setFeedbackInSession rest messageId fb
      (r.1, m :: r.2)

/-- The feedback scan over `Object.values(sessions)`: per session, find the
first assistant message with the given id, set its feedback, and `break` on
the first session that contained a match. -/
def setFeedback (st : Store) (messageId : String) (fb : Option String) : Bool × Store :=
  match st with
  | [] => (false, [])
  | s :: rest =>
    let r := setFeedbackInSession s.messages messageId fb
    if r.1 then (true, { s with messages := r.2 } :: rest)
    else
      let r' := setFeedback rest messageId fb
      (r'.1, s :: r'.2)

/-- The message the feedback scan would target: the first message with the
given id and role `assistant`, in scan order. -/
def findAssistantMsgIn (msgs : List Message) (messageId : String) : Option Message :=
  match msgs with
  | [] => none
  | m :: rest =>
    if m.id = messageId ∧ m.role = "assistant" then some m
    else findAssistantMsgIn rest messageId

/-- First assistant message with the given id across all sessions, in scan
order. -/
def findAssistantMsg (st : Store) (messageId : String) : Option Message :=
  match st with
  | [] => none
  | s :: rest =>
    match findAssistantMsgIn s.messages messageId with
    | some m => some m
    | none => findAssistantMsg rest messageId

/-- One element of the history array returned by `GET /api/session/:id`:
`\x7b id, type, content, tabularData, timestamp, feedback \x7d`.
`tabularData = none` models the JavaScript `undefined` (the key is omitted
from the serialized JSON). -/
structure MessageView where
  id : String
  type : String
  content : String
  tabularData : Option Table
  timestamp : Nat
  feedback : Option String
deriving DecidableEq, Repr

/-- The per-message mapping of the session route:
`tabularData: msg.structured ? msg.structured.table : undefined` (an object
is always truthy) and `feedback: msg.feedback || null`. -/
def messageView (m : Message) : MessageView :=
  { id := m.id, type := m.role, content := m.text,
    tabularData := match m.structured with
      | some p => some p.table
      | none => none,
    timestamp := m.createdAt,
    feedback := if jsFalsyStr m.feedback then none else m.feedback }

/-- The route `GET /api/session/:id`: 404 (`none`) when the session is
unknown, otherwise the mapped history. -/
def sessionRoute (st : Store) (sessionId : String) : Option (List MessageView) :=
  match getSession st sessionId with
  | none => none
  | some s => some (s.messages.map messageView)

/-- The HTTP outcome of the feedback route. -/
inductive FeedbackResult where
  /-- 200 with body `\x7b success: true, feedback \x7d`. -/
  | success (feedback : Option String)
  /-- 404 `Message not found`. -/
  | notFound
  /-- 400 `Missing feedback`. -/
  | badRequest
deriving DecidableEq, Repr

/-- The Express route `POST /api/messages/:id/feedback`: destructures
`feedback` from the body with no presence check, runs the scan, answers 404
when nothing matched and `\x7b success: true, feedback \x7d` otherwise. -/
def feedbackRouteExpress (st : Store) (messageId : String) (bodyFeedback : Option String) :
    FeedbackResult × Store :=
  let r := setFeedback st messageId bodyFeedback
  if r.1 then (FeedbackResult.success bodyFeedback, r.2)
  else (FeedbackResult.notFound, r.2)

/-- The serverless handler's feedback branch: rejects a falsy `feedback`
body field with 400 before scanning; otherwise behaves as the Express
route. -/
def feedbackRouteHandler (st : Store) (messageId : String) (bodyFeedback : Option String) :
    FeedbackResult × Store :=
  if jsFalsyStr bodyFeedback then (FeedbackResult.badRequest, st)
  else
    let r := setFeedback st messageId bodyFeedback
    if r.1 then (FeedbackResult.success bodyFeedback, r.2)
    else (FeedbackResult.notFound, r.2)

/-- The success body of `POST /api/chat/:id`:
`\x7b id, type, content, tabularData, timestamp, feedback, newTitle \x7d`. -/
structure ChatResponse where
  id : String
  type : String
  content : String
  tabularData : Table
  timestamp : Nat
  feedback : Option String
  newTitle : String
deriving DecidableEq, Repr

/-- The route `POST /api/chat/:id`: 400 (`none`) when the question is falsy
or the session unknown; otherwise appends the user message, appends the
assistant message built from the generated reply, and answers with the
assistant message's view plus `newTitle: session.title`.  The reply (built
by the out-of-scope random generator), the two fresh uuids and the two clock
readings are explicit arguments.  The final fallback branch is unreachable
because the session exists. -/
def chatRoute (st : Store) (sessionId question : String) (reply : Structured)
    (userMsgId asstMsgId : String) (t1 t2 : Nat) : Option ChatResponse × Store :=
  if question = "" then (none, st)
  else match getSession st sessionId with
  | none => (none, st)
  | some _ =>
    let r1 := addMessage st sessionId "user" question none none userMsgId t1
    let r2 := addMessage r1.2 sessionId "assistant" reply.description (some reply) none asstMsgId t2
    (match r2.1, getSession r2.2 sessionId with
     | some asst, some session =>
       some { id := asst.id, type := asst.role, content := asst.text,
              tabularData := reply.table, timestamp := asst.createdAt,
              feedback := if jsFalsyStr asst.feedback then none else asst.feedback,
              newTitle := session.title }
     | _, _ => none, r2.2)

/-- The store operations exercised by the API, with all environment inputs
(fresh uuids, clock readings, generated reply, request body) made explicit. -/
inductive Op where
  | create (freshId : String) (now : Nat) (title : Option String)
  | append (sessionId role text : String) (structured : Option Structured)
      (feedback : Option String) (freshId : String) (now : Nat)
  | setFb (messageId : String) (fb : Option String)
  | chat (sessionId question : String) (reply : Structured)
      (userMsgId asstMsgId : String) (t1 t2 : Nat)
deriving Repr

/-- The store after running one operation. -/
def applyOp (st : Store) : Op → Store
  | Op.create freshId now title => (createSession st freshId now title).2
  | Op.append sessionId role text structured feedback freshId now =>
      (addMessage st sessionId role text structured feedback freshId now).2
  | Op.setFb messageId fb => (setFeedback st messageId fb).2
  | Op.chat sessionId question reply userMsgId asstMsgId t1 t2 =>
      (chatRoute st sessionId question reply userMsgId asstMsgId t1 t2).2

/-- Freshness of a session id for an operation: a `create` never reuses an
existing session id (uuid collision-freeness of the environment).  The other
operations create no session. -/
def opFreshForStore (st : Store) : Op → Prop
  | Op.create freshId _ _ => getSession st freshId = none
  | _ => True

/-- Messages `m` and `m'` agree on every field except possibly `feedback`. -/
def eqExceptFeedback (a b : Message) : Prop :=
  a.id = b.id ∧ a.role = b.role ∧ a.text = b.text ∧
  a.structured = b.structured ∧ a.createdAt = b.createdAt

/-- Pointwise effect of one feedback write: a message is either untouched or
is an assistant message carrying the target id whose feedback field alone was
overwritten. -/
def msgFrame (messageId : String) (fb : Option String) (m m' : Message) : Prop :=
  m' = m ∨ (m.id = messageId ∧ m.role = "assistant" ∧ m' = { m with feedback := fb })

/-- Effect of one feedback write on a whole session: metadata untouched,
message list pointwise related by `msgFrame` (in particular: same length, no
reordering, no other field edited). -/
def sessionFrame (messageId : String) (fb : Option String) (s s' : Session) : Prop :=
  s'.id = s.id ∧ s'.title = s.title ∧ s'.createdAt = s.createdAt ∧
  List.Forall₂ (msgFrame messageId fb) s.messages s'.messages

/-- The new message list extends the old one at the end, with the common part
pointwise equal except possibly for feedback fields. -/
def appendModFeedback (old new : List Message) : Prop :=
  ∃ pre tl, new = pre ++ tl ∧ List.Forall₂ eqExceptFeedback old pre

/-- Every session of `st` survives into `st'` with identical metadata and a
message list that only gained a suffix. -/
def preservesSessions (st st' : Store) : Prop :=
  ∀ i s, getSession st i = some s →
    ∃ s', getSession st' i = some s' ∧ s'.id = s.id ∧ s'.title = s.title ∧
      s'.createdAt = s.createdAt ∧ ∃ tl, s'.messages = s.messages ++ tl

/-- A concrete store used to instantiate the theorems: one session holding a
user message and an assistant message. -/
def msgU : Message :=
  { id := "m0", role := "user", text := "ping", structured := none,
    feedback := none, createdAt := 4 }

/-- A concrete tabular payload. -/
def exTable : Table :=
  { headers := ["Metric"], rows := [["1"]], generatedAt := 5 }

/-- A concrete structured reply. -/
def exStructured : Structured :=
  { description := "d", table := exTable }

/-- A stored assistant message with empty-string feedback (a falsy value). -/
def msgA : Message :=
  { id := "m1", role := "assistant", text := "pong",
    structured := some exStructured,
    feedback := some "", createdAt := 5 }

/-- The concrete session holding `msgU` and `msgA`. -/
def sess1 : Session :=
  { id := "s1", title := "Chat - 00:00:03", createdAt := 3, messages := [msgU, msgA] }

/-- A second, older concrete session with no messages. -/
def sess2 : Session :=
  { id := "s2", title := "older", createdAt := 1, messages := [] }

/-- The concrete two-session store. -/
def exStore : Store := [sess1, sess2]

/-! ### Basic lemmas about lookups and updates -/

theorem getSession_some_id {st : Store} {i : String} {s : Session}
    (h : getSession st i = some s) : s.id = i := by
  induction st with
  | nil => simp [getSession] at h
  | cons a rest ih =>
    by_cases hid : a.id = i
    · simp [getSession, hid] at h; subst h; exact hid
    · simp [getSession, hid] at h; exact ih h

theorem getSession_eq_none_iff (st : Store) (i : String) :
    getSession st i = none ↔ ∀ s ∈ st, s.id ≠ i := by
  induction st with
  | nil => simp [getSession]
  | cons a rest ih =>
    by_cases hid : a.id = i
    · simp [getSession, hid]
    · simp [getSession, hid, ih]

theorem getSession_append_left {st : Store} (l : Store) {i : String} {s : Session}
    (h : getSession st i = some s) : getSession (st ++ l) i = some s := by
  induction st with
  | nil => simp [getSession] at h
  | cons a rest ih =>
    by_cases hid : a.id = i
    · simp [getSession, hid] at h ⊢; exact h
    · simp [getSession, hid] at h ⊢; exact ih h

theorem storeInsert_of_fresh {st : Store} {v : Session}
    (h : getSession st v.id = none) : storeInsert st v = st ++ [v] := by
  induction st with
  | nil => simp [storeInsert]
  | cons a rest ih =>
    rw [getSession_eq_none_iff] at h
    have ha : a.id ≠ v.id := h a (by simp)
    have hr : getSession rest v.id = none := by
      rw [getSession_eq_none_iff]; intro s hs; exact h s (by simp [hs])
    simp [storeInsert, ha, ih hr]

theorem getSession_storeInsert_self (st : Store) (v : Session) :
    getSession (storeInsert st v) v.id = some v := by
  induction st with
  | nil => simp [storeInsert, getSession]
  | cons a rest ih =>
    by_cases hid : a.id = v.id
    · simp [storeInsert, hid, getSession]
    · simp [storeInsert, hid, getSession, ih]

theorem getSession_map (f : Session → Session) (hf : ∀ s, (f s).id = s.id)
    (st : Store) (i : String) :
    getSession (st.map f) i = (getSession st i).map f := by
  induction st with
  | nil => simp [getSession]
  | cons a rest ih =>
    by_cases hid : a.id = i
    · simp [getSession, hf, hid]
    · simp [getSession, hf, hid, ih]

theorem getSession_pushMessage_self {st : Store} {i : String} {s : Session}
    (m : Message) (h : getSession st i = some s) :
    getSession (pushMessage st i m) i = some { s with messages := s.messages ++ [m] } := by
  have hid := getSession_some_id h
  rw [pushMessage, getSession_map _ (fun x => by by_cases hx : x.id = i <;> simp [hx]), h]
  simp [hid]

/-! ### Lemmas about the feedback scan -/

theorem sfis_of_not_found {msgs : List Message} {mid : String} (fb : Option String)
    (h : findAssistantMsgIn msgs mid = none) :
    setFeedbackInSession msgs mid fb = (false, msgs) := by
  induction msgs with
  | nil => rfl
  | cons m rest ih =>
    by_cases hm : m.id = mid ∧ m.role = "assistant"
    · simp only [findAssistantMsgIn, if_pos hm] at h
      exact Option.noConfusion h
    · simp only [findAssistantMsgIn, if_neg hm] at h
      simp only [setFeedbackInSession, if_neg hm, ih h]

theorem sfis_of_found {msgs : List Message} {mid : String} {m : Message} (fb : Option String)
    (h : findAssistantMsgIn msgs mid = some m) :
    (setFeedbackInSession msgs mid fb).1 = true ∧
    findAssistantMsgIn (setFeedbackInSession msgs mid fb).2 mid =
      some { m with feedback := fb } := by
  induction msgs with
  | nil => exact Option.noConfusion h
  | cons a rest ih =>
    by_cases ha : a.id = mid ∧ a.role = "assistant"
    · simp only [findAssistantMsgIn, if_pos ha] at h
      have h' : a = m := Option.some.inj h
      rw [← h']
      have hcond : ({ a with feedback := fb } : Message).id = mid ∧
          ({ a with feedback := fb } : Message).role = "assistant" := ⟨ha.1, ha.2⟩
      refine ⟨?_, ?_⟩
      · simp [setFeedbackInSession, if_pos ha]
      · simp only [setFeedbackInSession, if_pos ha]
        simp [findAssistantMsgIn, if_pos hcond]
    · simp only [findAssistantMsgIn, if_neg ha] at h
      obtain ⟨h1, h2⟩ := ih h
      refine ⟨?_, ?_⟩
      · simp only [setFeedbackInSession, if_neg ha]
        exact h1
      · simp only [setFeedbackInSession, if_neg ha]
        simp only [findAssistantMsgIn, if_neg ha]
        exact h2

theorem sfis_frame (msgs : List Message) (mid : String) (fb : Option String) :
    List.Forall₂ (msgFrame mid fb) msgs (setFeedbackInSession msgs mid fb).2 := by
  induction msgs with
  | nil => exact List.Forall₂.nil
  | cons a rest ih =>
    by_cases ha : a.id = mid ∧ a.role = "assistant"
    · simp only [setFeedbackInSession, if_pos ha]
      exact List.Forall₂.cons (Or.inr ⟨ha.1, ha.2, rfl⟩)
        (List.forall₂_same.mpr fun x _ => Or.inl rfl)
    · simp only [setFeedbackInSession, if_neg ha]
      exact List.Forall₂.cons (Or.inl rfl) ih

theorem setFeedback_of_not_found {st : Store} {mid : String} (fb : Option String)
    (h : findAssistantMsg st mid = none) :
    setFeedback st mid fb = (false, st) := by
  induction st with
  | nil => rfl
  | cons s rest ih =>
    cases hin : findAssistantMsgIn s.messages mid with
    | some m =>
      simp only [findAssistantMsg, hin] at h
      exact Option.noConfusion h
    | none =>
      simp only [findAssistantMsg, hin] at h
      simp [setFeedback, sfis_of_not_found fb hin, ih h]

theorem setFeedback_of_found {st : Store} {mid : String} {m : Message} (fb : Option String)
    (h : findAssistantMsg st mid = some m) :
    (setFeedback st mid fb).1 = true ∧
    findAssistantMsg (setFeedback st mid fb).2 mid = some { m with feedback := fb } := by
  induction st with
  | nil => simp [findAssistantMsg] at h
  | cons s rest ih =>
    cases hin : findAssistantMsgIn s.messages mid with
    | some m0 =>
      have hm : m0 = m := by
        simp only [findAssistantMsg, hin] at h
        injection h
      subst hm
      obtain ⟨h1, h2⟩ := sfis_of_found fb hin
      refine ⟨?_, ?_⟩
      · simp [setFeedback, h1]
      · simp only [setFeedback, h1, if_true]
        simp only [findAssistantMsg, h2]
    | none =>
      simp only [findAssistantMsg, hin] at h
      obtain ⟨h1, h2⟩ := ih h
      refine ⟨?_, ?_⟩
      · simp [setFeedback, sfis_of_not_found fb hin]
        exact h1
      · simp only [setFeedback, sfis_of_not_found fb hin]
        simp only [Bool.false_eq_true, if_false]
        simp only [findAssistantMsg, hin]
        exact h2

theorem setFeedback_frame (st : Store) (mid : String) (fb : Option String) :
    List.Forall₂ (sessionFrame mid fb) st (setFeedback st mid fb).2 := by
  induction st with
  | nil => exact List.Forall₂.nil
  | cons s rest ih =>
    by_cases hr : (setFeedbackInSession s.messages mid fb).1 = true
    · simp only [setFeedback, hr, if_true]
      exact List.Forall₂.cons ⟨rfl, rfl, rfl, sfis_frame s.messages mid fb⟩
        (List.forall₂_same.mpr fun x _ =>
          ⟨rfl, rfl, rfl, List.forall₂_same.mpr fun _ _ => Or.inl rfl⟩)
    · rw [Bool.not_eq_true] at hr
      simp only [setFeedback, hr, Bool.false_eq_true, if_false]
      exact List.Forall₂.cons
        ⟨rfl, rfl, rfl, List.forall₂_same.mpr fun _ _ => Or.inl rfl⟩ ih

theorem frame_getSession {mid : String} {fb : Option String} {st st' : Store}
    (hf : List.Forall₂ (sessionFrame mid fb) st st') {i : String} {s : Session}
    (h : getSession st i = some s) :
    ∃ s', getSession st' i = some s' ∧ sessionFrame mid fb s s' := by
  induction hf with
  | nil => simp [getSession] at h
  | cons hrel _ ih =>
    rename_i a b l₁ l₂ _
    by_cases hid : a.id = i
    · simp only [getSession, if_pos hid] at h
      obtain rfl : a = s := by injection h
      have hb : b.id = i := by rw [hrel.1, hid]
      exact ⟨b, by simp only [getSession, if_pos hb], hrel⟩
    · have hb : ¬ b.id = i := by rw [hrel.1]; exact hid
      simp only [getSession, if_neg hid] at h
      simp only [getSession, if_neg hb]
      exact ih h

/-! ### Preservation lemmas -/

theorem preservesSessions_refl (st : Store) : preservesSessions st st :=
  fun _ s h => ⟨s, h, rfl, rfl, rfl, [], by simp⟩

theorem preservesSessions_trans {a b c : Store}
    (h1 : preservesSessions a b) (h2 : preservesSessions b c) :
    preservesSessions a c := by
  intro i s h
  obtain ⟨s1, hb, hid1, ht1, hc1, tl1, hm1⟩ := h1 i s h
  obtain ⟨s2, hc, hid2, ht2, hc2, tl2, hm2⟩ := h2 i s1 hb
  exact ⟨s2, hc, hid2.trans hid1, ht2.trans ht1, hc2.trans hc1, tl1 ++ tl2,
    by rw [hm2, hm1, List.append_assoc]⟩

theorem preservesSessions_pushMessage (st : Store) (j : String) (m : Message) :
    preservesSessions st (pushMessage st j m) := by
  intro i s h
  rw [pushMessage, getSession_map _ (fun x => by by_cases hx : x.id = j <;> simp [hx]), h]
  by_cases hs : s.id = j
  · exact ⟨_, rfl, by simp [hs], by simp [hs], by simp [hs], [m], by simp [hs]⟩
  · exact ⟨_, rfl, by simp [hs], by simp [hs], by simp [hs], [], by simp [hs]⟩

theorem preservesSessions_addMessage (st : Store) (sid role text : String)
    (structured : Option Structured) (feedback : Option String)
    (freshId : String) (now : Nat) :
    preservesSessions st (addMessage st sid role text structured feedback freshId now).2 := by
  cases hg : getSession st sid with
  | none =>
    simp only [addMessage, hg]
    exact preservesSessions_refl st
  | some s0 =>
    simp only [addMessage, hg]
    exact preservesSessions_pushMessage st sid _

theorem preservesSessions_createSession (st : Store) (freshId : String) (now : Nat)
    (title : Option String) (hfresh : getSession st freshId = none) :
    preservesSessions st (createSession st freshId now title).2 := by
  intro i s h
  have hins : (createSession st freshId now title).2 =
      st ++ [(createSession st freshId now title).1] := by
    simp only [createSession]
    exact storeInsert_of_fresh hfresh
  rw [hins]
  exact ⟨s, getSession_append_left _ h, rfl, rfl, rfl, [], by simp⟩

theorem preservesSessions_chatRoute (st : Store) (sid q : String) (reply : Structured)
    (uId aId : String) (t1 t2 : Nat) :
    preservesSessions st (chatRoute st sid q reply uId aId t1 t2).2 := by
  by_cases hq : q = ""
  · simp only [chatRoute, if_pos hq]
    exact preservesSessions_refl st
  · cases hg : getSession st sid with
    | none =>
      simp only [chatRoute, if_neg hq, hg]
      exact preservesSessions_refl st
    | some s0 =>
      simp only [chatRoute, if_neg hq, hg]
      exact preservesSessions_trans
        (preservesSessions_addMessage st sid "user" q none none uId t1)
        (preservesSessions_addMessage _ sid "assistant" reply.description
          (some reply) none aId t2)

theorem preservesSessions_title {st st' : Store} (hp : preservesSessions st st')
    {i : String} {s s' : Session} (h : getSession st i = some s)
    (h' : getSession st' i = some s') : s'.title = s.title := by
  obtain ⟨s2, hb, _, ht, _, _, _⟩ := hp i s h
  rw [hb] at h'
  rw [← Option.some.inj h']
  exact ht

theorem preservesSessions_messages {st st' : Store} (hp : preservesSessions st st')
    {i : String} {s s' : Session} (h : getSession st i = some s)
    (h' : getSession st' i = some s') : ∃ tl, s'.messages = s.messages ++ tl := by
  obtain ⟨s2, hb, _, _, _, tl, hm⟩ := hp i s h
  rw [hb] at h'
  rw [← Option.some.inj h']
  exact ⟨tl, hm⟩

theorem msgFrame_eqExceptFeedback {mid : String} {fb : Option String} {m m' : Message}
    (h : msgFrame mid fb m m') : eqExceptFeedback m m' := by
  rcases h with rfl | ⟨_, _, rfl⟩
  · exact ⟨rfl, rfl, rfl, rfl, rfl⟩
  · exact ⟨rfl, rfl, rfl, rfl, rfl⟩

theorem appendModFeedback_of_append {old new : List Message} (tl : List Message)
    (h : new = old ++ tl) : appendModFeedback old new :=
  ⟨old, tl, h, List.forall₂_same.mpr fun _ _ => ⟨rfl, rfl, rfl, rfl, rfl⟩⟩

theorem setFeedback_fst (st : Store) (mid : String) (fb : Option String) :
    (setFeedback st mid fb).1 = (findAssistantMsg st mid).isSome := by
  cases h : findAssistantMsg st mid with
  | none => rw [setFeedback_of_not_found fb h]; rfl
  | some m => simp [(setFeedback_of_found fb h).1]

/-! ### Claims -/

/-- C1: for every session id resolving to an existing session, `addMessage`
returns the message built from the fresh identifier, the clock reading and
the input role/text, appends it at the end of that session's message
sequence (so its length grows by exactly one), and — assuming the
environment's uuid freshness — the new message's identifier differs from
every message identifier already stored. -/
theorem addMessage_known_appends (st : Store) (sessionId role text : String)
    (structured : Option Structured) (feedback : Option String)
    (freshId : String) (now : Nat) (s : Session)
    (hs : getSession st sessionId = some s)
    (hfresh : ∀ s' ∈ st, ∀ m ∈ s'.messages, m.id ≠ freshId) :
    (addMessage st sessionId role text structured feedback freshId now).1 =
      some { id := freshId, role := role, text := text, structured := structured,
             feedback := feedback, createdAt := now } ∧
    getSession (addMessage st sessionId role text structured feedback freshId now).2 sessionId =
      some { s with messages := s.messages ++
        [{ id := freshId, role := role, text := text, structured := structured,
           feedback := feedback, createdAt := now }] } ∧
    (∀ s2, getSession (addMessage st sessionId role text structured feedback freshId now).2
        sessionId = some s2 → s2.messages.length = s.messages.length + 1) ∧
    (∀ mret, (addMessage st sessionId role text structured feedback freshId now).1 = some mret →
      ∀ s' ∈ st, ∀ m ∈ s'.messages, m.id ≠ mret.id) := by
  have h2 := getSession_pushMessage_self
    ({ id := freshId, role := role, text := text, structured := structured,
       feedback := feedback, createdAt := now }) hs
  refine ⟨?_, ?_, ?_, ?_⟩
  · simp only [addMessage, hs]
  · simp only [addMessage, hs]
    exact h2
  · intro s2 hs2
    simp only [addMessage, hs] at hs2
    rw [h2] at hs2
    rw [← Option.some.inj hs2]
    simp
  · intro mret hret s' hs' m hm
    simp only [addMessage, hs] at hret
    rw [← Option.some.inj hret]
    exact hfresh s' hs' m hm

/-- Witness for C1: appending to the concrete store's session `s1` returns
the expected message. -/
theorem addMessage_known_appends_witness :
    (addMessage exStore "s1" "user" "hi" none none "m2" 9).1 =
      some { id := "m2", role := "user", text := "hi", structured := none,
             feedback := none, createdAt := 9 } :=
  (addMessage_known_appends exStore "s1" "user" "hi" none none "m2" 9 sess1
    (by decide) (by decide)).1

/-- C2: for a session id that resolves to no session, `addMessage` returns
`none` (absent, not an error) and returns the store unchanged — in
particular every existing session keeps its message count. -/
theorem addMessage_unknown_noop (st : Store) (sessionId role text : String)
    (structured : Option Structured) (feedback : Option String)
    (freshId : String) (now : Nat)
    (hs : getSession st sessionId = none) :
    (addMessage st sessionId role text structured feedback freshId now).1 = none ∧
    (addMessage st sessionId role text structured feedback freshId now).2 = st := by
  simp [addMessage, hs]

/-- Witness for C2: an unknown id on the concrete store. -/
theorem addMessage_unknown_noop_witness :
    (addMessage exStore "nope" "user" "hi" none none "m2" 9).1 = none ∧
    (addMessage exStore "nope" "user" "hi" none none "m2" 9).2 = exStore :=
  addMessage_unknown_noop exStore "nope" "user" "hi" none none "m2" 9 (by decide)

/-- C4: for a message id carried by no stored assistant message (for example
the id of a stored user message), the feedback scan reports `found = false`
and returns the store unchanged. -/
theorem setFeedback_not_found_noop (st : Store) (messageId : String) (fb : Option String)
    (h : findAssistantMsg st messageId = none) :
    (setFeedback st messageId fb).1 = false ∧
    (setFeedback st messageId fb).2 = st := by
  rw [setFeedback_of_not_found fb h]
  exact ⟨rfl, rfl⟩

/-- Witness for C4: the id `m0` belongs to a stored user message of the
concrete store, so the scan finds nothing and mutates nothing. -/
theorem setFeedback_not_found_noop_witness :
    (setFeedback exStore "m0" (some "like")).1 = false ∧
    (setFeedback exStore "m0" (some "like")).2 = exStore :=
  setFeedback_not_found_noop exStore "m0" (some "like") (by decide)

/-- C5: `listSessions` is a permutation of the per-session summaries (hence
exactly one entry per stored session), is sorted by creation timestamp
descending, and every stored session contributes an entry whose
`messageCount` is the length of its message sequence.  The operation is a
pure function of the store, so it has no side effects. -/
theorem listSessions_complete_sorted (st : Store) :
    List.Perm (listSessions st) (st.map sessionSummary) ∧
    List.Sorted summaryLE (listSessions st) ∧
    ∀ s ∈ st, ∃ e ∈ listSessions st,
      e.id = s.id ∧ e.title = s.title ∧ e.createdAt = s.createdAt ∧
      e.messageCount = s.messages.length := by
  refine ⟨List.perm_insertionSort summaryLE _, List.sorted_insertionSort summaryLE _, ?_⟩
  intro s hs
  refine ⟨sessionSummary s, ?_, rfl, rfl, rfl, rfl⟩
  exact ((List.perm_insertionSort summaryLE _).mem_iff).mpr
    (List.mem_map_of_mem _ hs)

/-- C10: in the history returned by the session route, `feedback` is `null`
whenever the stored value is absent or falsy (the empty string), and
`tabularData` is present exactly when the message carries a structured
payload, in which case it is that payload's `table`. -/
theorem sessionRoute_view_fields (st : Store) (sessionId : String) (s : Session)
    (h : getSession st sessionId = some s) :
    sessionRoute st sessionId = some (s.messages.map messageView) ∧
    ∀ m ∈ s.messages,
      ((m.feedback = none ∨ m.feedback = some "") → (messageView m).feedback = none) ∧
      ((messageView m).tabularData = none ↔ m.structured = none) ∧
      (∀ p, m.structured = some p → (messageView m).tabularData = some p.table) := by
  refine ⟨by simp only [sessionRoute, h], ?_⟩
  intro m _
  refine ⟨?_, ?_, ?_⟩
  · rintro (hf | hf) <;> simp [messageView, jsFalsyStr, hf]
  · cases hs : m.structured <;> simp [messageView, hs]
  · intro p hp
    simp [messageView, hp]

/-- Witness for C10: the concrete session's history, containing a user
message without payload and an assistant message with a falsy feedback. -/
theorem sessionRoute_view_fields_witness :
    sessionRoute exStore "s1" = some (sess1.messages.map messageView) :=
  (sessionRoute_view_fields exStore "s1" sess1 (by decide)).1

/-- C3: for a message id carried by a stored assistant message, the feedback
write reports `found = true`, leaves every session's metadata and every
message field other than the target's `feedback` unchanged (the pointwise
frame), stores the new value on the target message, and a second write with
another value leaves that second value. -/
theorem setFeedback_found_updates (st : Store) (messageId : String) (m : Message)
    (fb fb2 : Option String)
    (h : findAssistantMsg st messageId = some m) :
    (setFeedback st messageId fb).1 = true ∧
    List.Forall₂ (sessionFrame messageId fb) st (setFeedback st messageId fb).2 ∧
    findAssistantMsg (setFeedback st messageId fb).2 messageId =
      some { m with feedback := fb } ∧
    findAssistantMsg (setFeedback (setFeedback st messageId fb).2 messageId fb2).2
      messageId = some { m with feedback := fb2 } := by
  obtain ⟨h1, h2⟩ := setFeedback_of_found fb h
  refine ⟨h1, setFeedback_frame st messageId fb, h2, ?_⟩
  exact (setFeedback_of_found fb2 h2).2

/-- Witness for C3: setting feedback on the concrete assistant message `m1`
stores the value. -/
theorem setFeedback_found_updates_witness :
    findAssistantMsg (setFeedback exStore "m1" (some "like")).2 "m1" =
      some { msgA with feedback := some "like" } :=
  (setFeedback_found_updates exStore "m1" msgA (some "like") (some "dislike")
    (by decide)).2.2.1

/-- C6: a call to `createSession` with a fresh identifier returns a session
with that identifier, an empty message sequence, the clock reading as
creation timestamp and — when no title is supplied — the default title
`"Chat - " + <local HH:MM:SS>`; the session is stored under its id, the id
differs from every stored session id, and a successive call receives its own
clock reading as timestamp and a distinct identifier (timestamps therefore
strictly increase whenever the clock does, and the created sessions are
always distinguished by their unique ids). -/
theorem createSession_fresh (st : Store) (freshId id2 : String) (now t2 : Nat)
    (title2 : Option String)
    (hfresh : getSession st freshId = none) (hids : freshId ≠ id2) :
    (createSession st freshId now none).1 =
      { id := freshId, title := "Chat - " ++ localTimeHMS now, createdAt := now,
        messages := [] } ∧
    getSession (createSession st freshId now none).2 freshId =
      some (createSession st freshId now none).1 ∧
    (∀ s ∈ st, s.id ≠ freshId) ∧
    ((createSession (createSession st freshId now none).2 id2 t2 title2).1).createdAt = t2 ∧
    (createSession st freshId now none).1.id ≠
      (createSession (createSession st freshId now none).2 id2 t2 title2).1.id := by
  refine ⟨rfl, ?_, (getSession_eq_none_iff st freshId).mp hfresh, rfl, hids⟩
  exact getSession_storeInsert_self st _

/-- Witness for C6: a fresh id on the concrete store; epoch millisecond
3723999 renders as local time 01:02:03. -/
theorem createSession_fresh_witness :
    (createSession exStore "s3" 3723999 none).1 =
      { id := "s3", title := "Chat - " ++ localTimeHMS 3723999, createdAt := 3723999,
        messages := [] } :=
  (createSession_fresh exStore "s3" "s4" 3723999 4000000 none (by decide) (by decide)).1

/-- C7: no store operation (creation with a fresh id, message append,
feedback write, or the chat route) ever changes the title of an existing
session, and the `newTitle` field of a successful chat response is exactly
the title the target session already had — which by the first part is the
title given at creation. -/
theorem title_set_once :
    (∀ st op, opFreshForStore st op → ∀ i s s',
      getSession st i = some s → getSession (applyOp st op) i = some s' →
      s'.title = s.title) ∧
    (∀ st sid q reply uId aId t1 t2 resp s,
      getSession st sid = some s →
      (chatRoute st sid q reply uId aId t1 t2).1 = some resp →
      resp.newTitle = s.title) := by
  constructor
  · intro st op hf i s s' h h'
    cases op with
    | create freshId now title =>
      exact preservesSessions_title (preservesSessions_createSession st freshId now title hf) h h'
    | append sid role text structured feedback freshId now =>
      exact preservesSessions_title
        (preservesSessions_addMessage st sid role text structured feedback freshId now) h h'
    | setFb mid fb =>
      obtain ⟨s2, hb, hframe⟩ := frame_getSession (setFeedback_frame st mid fb) h
      simp only [applyOp] at h'
      rw [hb] at h'
      rw [← Option.some.inj h']
      exact hframe.2.1
    | chat sid q reply uId aId t1 t2 =>
      exact preservesSessions_title (preservesSessions_chatRoute st sid q reply uId aId t1 t2) h h'
  · intro st sid q reply uId aId t1 t2 resp s h hresp
    by_cases hq : q = ""
    · simp only [chatRoute, if_pos hq] at hresp
      exact Option.noConfusion hresp
    · simp only [chatRoute, if_neg hq, h] at hresp
      cases ha : (addMessage (addMessage st sid "user" q none none uId t1).2 sid "assistant"
          reply.description (some reply) none aId t2).1 with
      | none =>
        rw [ha] at hresp
        exact Option.noConfusion hresp
      | some asst =>
        cases hg2 : getSession (addMessage (addMessage st sid "user" q none none uId t1).2
            sid "assistant" reply.description (some reply) none aId t2).2 sid with
        | none =>
          rw [ha, hg2] at hresp
          exact Option.noConfusion hresp
        | some session =>
          rw [ha, hg2] at hresp
          rw [← Option.some.inj hresp]
          exact preservesSessions_title
            (preservesSessions_trans
              (preservesSessions_addMessage st sid "user" q none none uId t1)
              (preservesSessions_addMessage _ sid "assistant" reply.description
                (some reply) none aId t2)) h hg2

/-- Witness for C7: a feedback write on the concrete store leaves the title
of session `s1` unchanged. -/
theorem title_set_once_witness :
    ({ id := "s1", title := "Chat - 00:00:03", createdAt := 3,
       messages := [msgU, { msgA with feedback := some "like" }] } : Session).title =
      sess1.title :=
  title_set_once.1 exStore (Op.setFb "m1" (some "like")) trivial "s1" sess1 _
    (by decide) (by decide)

/-- C8: every operation only ever appends messages at the end of a session's
sequence: the old sequence is pointwise a prefix of the new one up to
feedback fields, and for every operation other than a feedback write the old
sequence is literally a prefix (no deletion, reordering, or edit). -/
theorem messages_append_only (st : Store) (op : Op) (hf : opFreshForStore st op)
    (i : String) (s s' : Session)
    (h : getSession st i = some s) (h' : getSession (applyOp st op) i = some s') :
    appendModFeedback s.messages s'.messages ∧
    ((∀ mid fb, op ≠ Op.setFb mid fb) → ∃ tl, s'.messages = s.messages ++ tl) := by
  cases op with
  | create freshId now title =>
    obtain ⟨tl, htl⟩ := preservesSessions_messages
      (preservesSessions_createSession st freshId now title hf) h h'
    exact ⟨appendModFeedback_of_append tl htl, fun _ => ⟨tl, htl⟩⟩
  | append sid role text structured feedback freshId now =>
    obtain ⟨tl, htl⟩ := preservesSessions_messages
      (preservesSessions_addMessage st sid role text structured feedback freshId now) h h'
    exact ⟨appendModFeedback_of_append tl htl, fun _ => ⟨tl, htl⟩⟩
  | setFb mid fb =>
    obtain ⟨s2, hb, hframe⟩ := frame_getSession (setFeedback_frame st mid fb) h
    simp only [applyOp] at h'
    rw [hb] at h'
    rw [← Option.some.inj h']
    refine ⟨⟨s2.messages, [], by simp, ?_⟩, fun hno => absurd rfl (hno mid fb)⟩
    exact hframe.2.2.2.imp fun _ _ => msgFrame_eqExceptFeedback
  | chat sid q reply uId aId t1 t2 =>
    obtain ⟨tl, htl⟩ := preservesSessions_messages
      (preservesSessions_chatRoute st sid q reply uId aId t1 t2) h h'
    exact ⟨appendModFeedback_of_append tl htl, fun _ => ⟨tl, htl⟩⟩

/-- Witness for C8: the feedback write on the concrete store extends (here:
preserves) session `s1`'s message sequence up to feedback fields. -/
theorem messages_append_only_witness :
    appendModFeedback sess1.messages
      [msgU, { msgA with feedback := some "like" }] :=
  (messages_append_only exStore (Op.setFb "m1" (some "like")) trivial "s1" sess1
    { id := "s1", title := "Chat - 00:00:03", createdAt := 3,
      messages := [msgU, { msgA with feedback := some "like" }] }
    (by decide) (by decide)).1

/-- C9 counterexample: the Express feedback route does not reject a request
body without a `feedback` field — on the concrete store, a body carrying no
feedback for the existing assistant message `m1` is answered with the
success body (storing the absent value), not with a 400. -/
theorem feedback_missing_field_not_rejected :
    (feedbackRouteExpress exStore "m1" none).1 = FeedbackResult.success none ∧
    FeedbackResult.success none ≠ FeedbackResult.badRequest := by
  refine ⟨by decide, by decide⟩

/-- C9 amended: the serverless handler's feedback route answers 400 exactly
on a falsy `feedback` body field, and otherwise 404 when no assistant
message carries the id and the success body when one does; the Express
route performs no body check at all — it answers the success body whenever
an assistant message carries the id (even with the feedback field missing)
and 404 otherwise. -/
theorem feedbackRoute_statuses (st : Store) (messageId : String) (body : Option String) :
    ((feedbackRouteHandler st messageId body).1 = FeedbackResult.badRequest ↔
      jsFalsyStr body = true) ∧
    (jsFalsyStr body = false →
      (((feedbackRouteHandler st messageId body).1 = FeedbackResult.success body) ↔
        (findAssistantMsg st messageId).isSome = true) ∧
      (((feedbackRouteHandler st messageId body).1 = FeedbackResult.notFound) ↔
        findAssistantMsg st messageId = none)) ∧
    (((feedbackRouteExpress st messageId body).1 = FeedbackResult.success body) ↔
      (findAssistantMsg st messageId).isSome = true) ∧
    (((feedbackRouteExpress st messageId body).1 = FeedbackResult.notFound) ↔
      findAssistantMsg st messageId = none) := by
  have hfst := setFeedback_fst st messageId body
  by_cases hfb : jsFalsyStr body = true <;>
    cases hfind : findAssistantMsg st messageId <;>
      rw [hfind] at hfst <;>
        simp_all [feedbackRouteHandler, feedbackRouteExpress, hfst]

/-- Witness for C9 (amended): a present feedback value on the concrete
store's assistant message yields the success answer from the handler. -/
theorem feedbackRoute_statuses_witness :
    (feedbackRouteHandler exStore "m1" (some "like")).1 =
      FeedbackResult.success (some "like") :=
  ((feedbackRoute_statuses exStore "m1" (some "like")).2.1 (by decide)).1.mpr (by decide)
